import Mathlib

/-!
Verification of the request pipeline of `application-mcp-server`
(`src/application_mcp/{graph,rate_limiter,metrics,auth,exceptions,config}.py`),
as a shallow embedding in Lean 4.

Conventions of the embedding:
* Python strings are Lean `String`s; substring membership (`in`), `startswith`
  and `.lower()` are modelled on the underlying character lists (ASCII case
  mapping; the repository only ever compares ASCII path fragments).
* Python numbers: `int` is `Int`, time/durations are `ℚ` (exact rationals in
  place of IEEE floats; no claim here depends on float rounding).
* Module-global mutable state (the limiter registry, the metrics collector,
  the token cache) is threaded explicitly: each operation takes the state and
  returns the updated state.
* The network is an oracle `Nat → AttemptOutcome` giving, for the i-th network
  call of a logical `request`, either an HTTP response (status, optional
  `Retry-After` header value, elapsed wall time) or a network-level exception
  (httpx connect/timeout/DNS error).  `asyncio.sleep` advances the same clock.
* Fallible Python code returns `Except`/an explicit exception constructor.
-/

namespace AppMCP

/-! ## Python string primitives (ASCII model) -/

/-- Characters of a Python string. -/
def strChars (s : String) : List Char := s.data

/-- ASCII case-folding of one character, as Python `str.lower` acts on ASCII. -/
def asciiLower (c : Char) : Char :=
  if 65 ≤ c.toNat ∧ c.toNat ≤ 90 then Char.ofNat (c.toNat + 32) else c

/-- Python `s.lower()` (ASCII model). -/
def pyLower (s : String) : List Char := s.data.map asciiLower

/-- Does the first list occur at the head of the second? -/
def headMatch : List Char → List Char → Bool
  | [], _ => true
  | _ :: _, [] => false
  | a :: as, b :: bs => a == b && headMatch as bs

/-- Python `needle in hay` on character lists: some suffix of `hay` starts
with `needle`. -/
def charsIn (needle : List Char) : List Char → Bool
  | [] => headMatch needle []
  | c :: rest => headMatch needle (c :: rest) || charsIn needle rest

/-- Python `needle in hay` where `hay` is an already-lowered character list. -/
def pyIn (needle : String) (hay : List Char) : Bool :=
  charsIn needle.data hay

/-- Python `hay.startswith(needle)` on an already-lowered character list. -/
def pyStartsWith (hay : List Char) (needle : String) : Bool :=
  headMatch needle.data hay

/-! ## `rate_limiter._get_endpoint_category` (rate_limiter.py lines 34-77) -/

/-- Embedding of `_get_endpoint_category(endpoint)`: lower the endpoint, then
run the if-chain of substring / startswith tests exactly as in the source,
first match returning its category, defaulting to `"global"`. -/
def _get_endpoint_category (endpoint : String) : String :=
  let e := pyLower endpoint
  if pyIn "/messages" e || pyIn "/mailfolder" e then "mail"
  else if pyIn "/calendar" e || pyIn "/events" e then "calendar"
  else if pyIn "/channels/" e && pyIn "/messages" e then "teams_messages"
  else if pyIn "/search" e || pyIn "$search" e then "search"
  else if (pyStartsWith e "/users" || pyStartsWith e "/groups")
          && (!pyIn "/messages" e && !pyIn "/calendar" e) then "users"
  else if pyIn "/drive" e || pyIn "/drives/" e then "files"
  else if pyIn "/onlinemeetings" e || pyIn "/meetings" e then "meetings"
  else "global"

/-! Spec-side formulation of C5 ("first match wins, checked in this order"):
an ordered rule list, searched left to right, defaulting to `"global"`.
The predicates are the ones §4.2 of the spec names for each category. -/

/-- Ordered category rules as the spec lists them (predicate, category). -/
def categoryRules : List ((List Char → Bool) × String) :=
  [ (fun e => pyIn "/messages" e || pyIn "/mailfolder" e, "mail"),
    (fun e => pyIn "/calendar" e || pyIn "/events" e, "calendar"),
    (fun e => pyIn "/channels/" e && pyIn "/messages" e, "teams_messages"),
    (fun e => pyIn "/search" e || pyIn "$search" e, "search"),
    (fun e => (pyStartsWith e "/users" || pyStartsWith e "/groups")
          && (!pyIn "/messages" e && !pyIn "/calendar" e), "users"),
    (fun e => pyIn "/drive" e || pyIn "/drives/" e, "files"),
    (fun e => pyIn "/onlinemeetings" e || pyIn "/meetings" e, "meetings") ]

/-- First rule whose predicate holds wins; no rule matching gives
`"global"`. -/
def applyRules : List ((List Char → Bool) × String) → List Char → String
  | [], _ => "global"
  | r :: rs, e => if r.1 e then r.2 else applyRules rs e

/-- Spec-side classifier: first rule of `categoryRules` whose predicate holds
on the lowered path wins; otherwise `"global"`. -/
def firstMatchCategory (endpoint : String) : String :=
  applyRules categoryRules (pyLower endpoint)

/-! ## Python numeric literal parsing (for `int()` / `float()` calls) -/

/-- ASCII-whitespace left-strip. -/
def dropLeadingWS : List Char → List Char
  | [] => []
  | c :: cs =>
    if c == ' ' || c == '\t' || c == '\n' || c == '\r' then dropLeadingWS cs
    else c :: cs

/-- Python `.strip()` (ASCII-whitespace model): drop trailing, then leading
whitespace. -/
def pyStrip (cs : List Char) : List Char :=
  dropLeadingWS ((dropLeadingWS cs.reverse).reverse)

/-- Value of an ASCII digit run. -/
def natOfDigits (cs : List Char) : Nat :=
  cs.foldl (fun n c => n * 10 + (c.toNat - 48)) 0

/-- Nonempty all-digit run, or failure. -/
def digitsVal? (cs : List Char) : Option Nat :=
  if !cs.isEmpty && cs.all Char.isDigit then some (natOfDigits cs) else none

/-- Python `int(s)` on the decimal-literal subset: surrounding whitespace is
ignored (so an explicit `.strip()` at a call site is absorbed), an optional
sign precedes a nonempty digit run; anything else is a `ValueError`, i.e.
`none`.  (Underscore digit grouping and non-ASCII digits are not modelled;
the repository's configuration strings and `Retry-After` values are plain
ASCII.) -/
def pyInt? (cs : List Char) : Option Int :=
  match pyStrip cs with
  | '+' :: rest => (digitsVal? rest).map Int.ofNat
  | '-' :: rest => (digitsVal? rest).map (fun n => -(n : Int))
  | rest => (digitsVal? rest).map Int.ofNat

/-- Python `float(s)` on the plain decimal subset (optional sign, digits,
optional `.` and fraction digits; exponents / `inf` / `nan` not modelled),
as an exact rational; `none` is a `ValueError`. -/
def pyFloat? (cs : List Char) : Option ℚ :=
  let stripped := pyStrip cs
  let sb : Bool × List Char :=
    match stripped with
    | '+' :: rest => (false, rest)
    | '-' :: rest => (true, rest)
    | rest => (false, rest)
  let signed : ℚ → ℚ := fun v => if sb.1 then -v else v
  let intPart := sb.2.takeWhile Char.isDigit
  let rest := sb.2.dropWhile Char.isDigit
  match rest with
  | [] =>
    if intPart.isEmpty then none else some (signed (natOfDigits intPart))
  | '.' :: frac =>
    if frac.all Char.isDigit && !(intPart.isEmpty && frac.isEmpty) then
      some (signed ((natOfDigits intPart : ℚ)
        + (natOfDigits frac : ℚ) / (10 ^ frac.length)))
    else none
  | _ => none

/-- Python `s.split(",")`: every comma is a separator, empty parts are kept,
the result is never empty. -/
def splitOnComma : List Char → List (List Char)
  | [] => [[]]
  | c :: rest =>
    if c == ',' then [] :: splitOnComma rest
    else
      match splitOnComma rest with
      | [] => [[c]]
      | p :: ps => (c :: p) :: ps

/-! ## `rate_limiter._parse_rate_limit` and the limiter registry
(rate_limiter.py lines 13-31 and 80-126) -/

/-- Embedding of `_parse_rate_limit(rate_limit_str)`: split on commas, parse
`int(parts[0].strip())` and `float(parts[1].strip())`; a missing second part
(`IndexError`) or a failed numeric parse (`ValueError`) is caught and yields
the conservative default `(100, 60)`.  Total by construction, as the `except`
clause makes the Python function total on strings. -/
def _parse_rate_limit (rate_limit_str : String) : Int × ℚ :=
  match splitOnComma rate_limit_str.data with
  | p0 :: p1 :: _ =>
    match pyInt? p0, pyFloat? p1 with
    | some mx, some tp => (mx, tp)
    | _, _ => (100, 60)
  | _ => (100, 60)

/-- An `aiolimiter.AsyncLimiter` as far as its construction parameters are
concerned (its admission behaviour is external library code). -/
structure AsyncLimiter where
  max_rate : Int
  time_period : ℚ
deriving Repr, DecidableEq

/-- Per-category rate-limit configuration strings
(`config.RATE_LIMIT_*`, config.py lines 34-55). -/
structure RateConfig where
  RATE_LIMIT_GLOBAL : String
  RATE_LIMIT_MAIL : String
  RATE_LIMIT_CALENDAR : String
  RATE_LIMIT_TEAMS_MESSAGES : String
  RATE_LIMIT_SEARCH : String
  RATE_LIMIT_USERS : String
  RATE_LIMIT_FILES : String
  RATE_LIMIT_MEETINGS : String
deriving Repr, DecidableEq

/-- Module-global `_rate_limiters` dict, as an association list. -/
abbrev LimiterRegistry := List (String × AsyncLimiter)

/-- Lookup in the `rate_limit_config` dict literal of `get_rate_limiter`,
with `config.RATE_LIMIT_GLOBAL` as the `.get` default. -/
def rate_limit_config_get (cfg : RateConfig) (category : String) : String :=
  if category = "global" then cfg.RATE_LIMIT_GLOBAL
  else if category = "mail" then cfg.RATE_LIMIT_MAIL
  else if category = "calendar" then cfg.RATE_LIMIT_CALENDAR
  else if category = "teams_messages" then cfg.RATE_LIMIT_TEAMS_MESSAGES
  else if category = "search" then cfg.RATE_LIMIT_SEARCH
  else if category = "users" then cfg.RATE_LIMIT_USERS
  else if category = "files" then cfg.RATE_LIMIT_FILES
  else if category = "meetings" then cfg.RATE_LIMIT_MEETINGS
  else cfg.RATE_LIMIT_GLOBAL

/-- Embedding of `get_rate_limiter(endpoint)` over the explicit registry
state: classify the endpoint, return the cached limiter when the category is
present, otherwise build one from the parsed configuration and cache it. -/
def get_rate_limiter (cfg : RateConfig) (endpoint : String)
    (st : LimiterRegistry) : AsyncLimiter × LimiterRegistry :=
  let category := _get_endpoint_category endpoint
  match st.lookup category with
  | some limiter => (limiter, st)
  | none =>
    let parsed := _parse_rate_limit (rate_limit_config_get cfg category)
    let limiter : AsyncLimiter := ⟨parsed.1, parsed.2⟩
    (limiter, (category, limiter) :: st)

/-! ## `metrics.MetricsCollector` (metrics.py lines 11-139) -/

/-- The `RequestMetrics` dataclass. -/
structure RequestMetrics where
  total_requests : Nat
  success_count : Nat
  error_count : Nat
  rate_limit_count : Nat
  server_error_count : Nat
  total_duration_ms : ℚ
  min_duration_ms : Option ℚ
  max_duration_ms : Option ℚ
deriving Repr, DecidableEq

/-- Field defaults of the dataclass. -/
def RequestMetrics.init : RequestMetrics :=
  ⟨0, 0, 0, 0, 0, 0, none, none⟩

/-- Embedding of `MetricsCollector._update_metrics`: bump totals and
min/max, then classify by status code band.  The `error` tag is accepted
but, exactly as in the source, only `status_code` drives the counters. -/
def _update_metrics (m : RequestMetrics) (duration_ms : ℚ) (status_code : Nat)
    (error : Option String) : RequestMetrics :=
  let _ := error
  let m := { m with total_requests := m.total_requests + 1,
                    total_duration_ms := m.total_duration_ms + duration_ms }
  let m := { m with min_duration_ms :=
      match m.min_duration_ms with
      | none => some duration_ms
      | some x => some (if duration_ms < x then duration_ms else x) }
  let m := { m with max_duration_ms :=
      match m.max_duration_ms with
      | none => some duration_ms
      | some x => some (if duration_ms > x then duration_ms else x) }
  if 200 ≤ status_code ∧ status_code < 300 then
    { m with success_count := m.success_count + 1 }
  else if 400 ≤ status_code then
    let m := { m with error_count := m.error_count + 1 }
    if status_code = 429 then
      { m with rate_limit_count := m.rate_limit_count + 1 }
    else if 500 ≤ status_code then
      { m with server_error_count := m.server_error_count + 1 }
    else m
  else m

/-- Collector state: the global aggregate and the per-endpoint dict. -/
structure MetricsCollector where
  _global_metrics : RequestMetrics
  _endpoint_metrics : List (String × RequestMetrics)
deriving Repr, DecidableEq

/-- Python dict assignment `d[k] = v` on an association list. -/
def setEntry (es : List (String × RequestMetrics)) (k : String)
    (v : RequestMetrics) : List (String × RequestMetrics) :=
  match es with
  | [] => [(k, v)]
  | (k', v') :: rest =>
    if k = k' then (k, v) :: rest else (k', v') :: setEntry rest k v

/-- Embedding of `MetricsCollector.record_request`: update the global
aggregate and the (possibly freshly created) per-endpoint aggregate. -/
def record_request (st : MetricsCollector) (endpoint : String)
    (duration_ms : ℚ) (status_code : Nat) (error : Option String) :
    MetricsCollector :=
  let g := _update_metrics st._global_metrics duration_ms status_code error
  let prev := (st._endpoint_metrics.lookup endpoint).getD RequestMetrics.init
  let em := _update_metrics prev duration_ms status_code error
  { _global_metrics := g,
    _endpoint_metrics := setEntry st._endpoint_metrics endpoint em }

/-- Python `round(x, 2)` on exact rationals: round half to even at the
second decimal place. -/
def round2 (x : ℚ) : ℚ :=
  let y := x * 100
  let f : ℤ := ⌊y⌋
  let r := y - (f : ℚ)
  let n : ℤ :=
    if r < 1 / 2 then f
    else if 1 / 2 < r then f + 1
    else if f % 2 = 0 then f else f + 1
  (n : ℚ) / 100

/-- Embedding of `MetricsCollector._calculate_success_rate`: percentage of
successes over `total_requests`, rounded to two decimals; `0.0` when no
requests were recorded. -/
def _calculate_success_rate (m : RequestMetrics) : ℚ :=
  if m.total_requests = 0 then 0
  else round2 ((m.success_count : ℚ) / (m.total_requests : ℚ) * 100)

/-! ## `graph.request` (graph.py lines 62-227)

The network is an oracle indexed by the number of network calls already made
by this logical call (every loop iteration issues exactly one network call,
so the i-th iteration consumes index i).  `auth.get_token()` may fail before
the loop; `get_rate_limiter`'s registry effect is modelled separately above
and the acquired permits/slots do not influence the control flow embedded
here (they only suspend). -/

/-- Outcome of one network call of `client.request(...)`: either an HTTP
response (status, optional `Retry-After` header value, elapsed wall time) or
an httpx network-level exception (connection refused / timeout / DNS). -/
inductive AttemptOutcome where
  | response (status : Nat) (retryAfter : Option String) (elapsed : ℚ)
  | netExc (elapsed : ℚ)
deriving Repr, DecidableEq

/-- Exceptions a logical `request` call can terminate with.  The first four
are the ones `graph.request` actually produces; `maxRetriesExceededError` and
`resourceNotFoundError` are the `exceptions.py` classes (lines 179-194 and
82-89) — they are part of the repository's taxonomy but `graph.py` never
imports `exceptions.py`, so the interpreter never constructs them. -/
inductive PyExc where
  | httpStatusError (status : Nat)
  | valueError
  | networkExc
  | authExc
  | genericMaxRetries (max_retries : Nat)
  | maxRetriesExceededError (endpoint : String) (attempts : Nat)
  | resourceNotFoundError (endpoint : String)
deriving Repr, DecidableEq

/-- Result of the logical call: a parsed JSON body (we retain the status it
came with) or a raised exception. -/
inductive ReqOutcome where
  | ok (status : Nat)
  | exc (e : PyExc)
deriving Repr, DecidableEq

/-- One `metrics_collector.record_request` sample as emitted by the
`finally` block. -/
structure MetricSample where
  endpoint : String
  duration_ms : ℚ
  status_code : Nat
  error_type : Option String
deriving Repr, DecidableEq

/-- Mutable locals of `request` threaded through the attempt loop:
network calls made so far, sleeps performed (in order), the `status_code`
and `error_type` variables, and elapsed wall time (network time plus
sleeps). -/
structure LoopAcc where
  calls : Nat
  sleeps : List ℚ
  status_code : Nat
  error_type : Option String
  elapsed : ℚ
deriving Repr, DecidableEq

/-- Initial locals: `status_code = 0`, `error_type = None`. -/
def LoopAcc.init : LoopAcc := ⟨0, [], 0, none, 0⟩

/-- Embedding of the `while retry_count <= max_retries` loop of
`graph.request`.  `rc` is `retry_count`; `fuel` is the number of loop
iterations still permitted by the loop condition (`max_retries + 1 - rc`),
kept explicit so the recursion is structural; the `fuel = 0` case is the
fall-through `raise Exception(...)` after the loop (graph.py line 222).

Branches, in source order:
* a network-level exception from `client.request` is not an
  `httpx.HTTPStatusError`, so no `except` catches it: it propagates;
* status 429: `error_type = "rate_limit"`, then
  `int(response.headers.get("Retry-After", "5"))` — a non-integer header
  raises `ValueError`, uncaught; with attempts remaining sleep
  `min(retry_after, RETRY_MAX_WAIT)` and continue; exhausted, fall through
  to the `>= 400` branch;
* status ≥ 500 with attempts remaining: `error_type = "server_error"`,
  sleep `2 ** retry_count`, continue;
* status ≥ 400: `error_type = "client_error"`, `response.raise_for_status()`
  raises `httpx.HTTPStatusError`; the `except` sets
  `error_type = "http_error"` and re-raises, because its retry condition
  (`retry_count < max_retries and status >= 500`) is always false here —
  the `>= 500`-with-attempts case already continued above;
* otherwise: return `response.json()`. -/
def requestLoop (oracle : Nat → AttemptOutcome) (max_retries : Nat)
    (RETRY_MAX_WAIT : Int) : Nat → Nat → LoopAcc → ReqOutcome × LoopAcc
  | _, 0, acc => (.exc (.genericMaxRetries max_retries), acc)
  | rc, fuel + 1, acc =>
    match oracle acc.calls with
    | .netExc t =>
      (.exc .networkExc,
        { acc with calls := acc.calls + 1, elapsed := acc.elapsed + t })
    | .response status ra t =>
      let acc := { acc with calls := acc.calls + 1,
                            elapsed := acc.elapsed + t,
                            status_code := status }
      if status = 429 then
        let acc := { acc with error_type := some "rate_limit" }
        match pyInt? (ra.getD "5").data with
        | none => (.exc .valueError, acc)
        | some retry_after =>
          if rc < max_retries then
            let w : ℚ := (min retry_after RETRY_MAX_WAIT : Int)
            requestLoop oracle max_retries RETRY_MAX_WAIT (rc + 1) fuel
              { acc with sleeps := acc.sleeps ++ [w], elapsed := acc.elapsed + w }
          else
            (.exc (.httpStatusError status),
              { acc with error_type := some "http_error" })
      else if 500 ≤ status ∧ rc < max_retries then
        let w : ℚ := ((2 ^ rc : Nat) : ℚ)
        requestLoop oracle max_retries RETRY_MAX_WAIT (rc + 1) fuel
          { acc with error_type := some "server_error",
                     sleeps := acc.sleeps ++ [w], elapsed := acc.elapsed + w }
      else if 400 ≤ status then
        (.exc (.httpStatusError status),
          { acc with error_type := some "http_error" })
      else
        (.ok status, acc)

/-- Trace of one logical `request` call. -/
structure ReqTrace where
  outcome : ReqOutcome
  networkCalls : Nat
  sleeps : List ℚ
  samples : List MetricSample
deriving Repr, DecidableEq

/-- Embedding of `graph.request`: token acquisition (an oracle value — `none`
models `auth.get_token()` raising), default `max_retries` from configuration,
the attempt loop, and the `finally` block, which runs on every exit path and
records exactly one sample carrying the elapsed wall time, the last observed
`status_code` and the final `error_type`. -/
def request (MAX_RETRIES : Nat) (RETRY_MAX_WAIT : Int)
    (tokenResult : Option String) (oracle : Nat → AttemptOutcome)
    (endpoint : String) (max_retries : Option Nat) : ReqTrace :=
  match tokenResult with
  | none =>
    { outcome := .exc .authExc, networkCalls := 0, sleeps := [],
      samples := [⟨endpoint, 0, 0, none⟩] }
  | some _ =>
    let mr := max_retries.getD MAX_RETRIES
    let r := requestLoop oracle mr RETRY_MAX_WAIT 0 (mr + 1) LoopAcc.init
    { outcome := r.1, networkCalls := r.2.calls, sleeps := r.2.sleeps,
      samples := [⟨endpoint, r.2.elapsed, r.2.status_code, r.2.error_type⟩] }

/-- Elapsed network time of the i-th network call, as the oracle reports it. -/
def attemptTime (oracle : Nat → AttemptOutcome) (i : Nat) : ℚ :=
  match oracle i with
  | .response _ _ t => t
  | .netExc t => t

/-- Status of the most recent response among the first `n` network calls,
`0` when none of them produced a response. -/
def lastStatus (oracle : Nat → AttemptOutcome) : Nat → Nat
  | 0 => 0
  | n + 1 =>
    match oracle n with
    | .response s _ _ => s
    | .netExc _ => lastStatus oracle n

/-! ## `auth` (auth.py lines 51-116) -/

/-- Module state of `auth`: the `_cached_token` global (we retain only the
access-token string of the cached result dict). -/
structure AuthState where
  _cached_token : Option String
deriving Repr, DecidableEq

/-- Outcome of `app.acquire_token_for_client(scopes)`: a result dict with an
`access_token`, or an error/description pair. -/
inductive MsalResult where
  | tok (access_token : String)
  | err (error : String) (error_description : String)
deriving Repr, DecidableEq

/-- Embedding of `auth.get_token()`.  Each call constructs a fresh
`msal.ConfidentialClientApplication` (auth.py line 68 via `get_app()`), whose
in-memory token cache is empty, so `acquire_token_silent(scopes, account=None)`
returns `None` and a client-credentials exchange is always performed; its
outcome is the `exchange` argument.  On success the module cache is replaced
and the access token returned; on failure the provider's error/description is
surfaced inside the raised exception. -/
def get_token (exchange : MsalResult) (st : AuthState) :
    Except String (String × AuthState) :=
  match exchange with
  | .tok t => .ok (t, { _cached_token := some t })
  | .err e d => .error ("Failed to acquire token: " ++ e ++ " - " ++ d)

/-- Embedding of `auth.clear_token_cache()`: the global assignment
`_cached_token = None` happens first; the following
`print(..., file=sys.stderr)` then raises `NameError`, because `auth.py`
never imports `sys` (its imports are `os`, `threading`, `msal`, `typing`,
`dotenv` only).  The mutation survives the exception. -/
def clear_token_cache (st : AuthState) : Except String Unit × AuthState :=
  let st := { st with _cached_token := none }
  (.error "NameError: name 'sys' is not defined", st)

/-! ## Claims -/

/-- C5: the category classifier is a pure function of the path applying
first-match-wins in the order mail, calendar, teams_messages, search,
users/groups, files, meetings, global; in particular
`/users/alice@corp.com/messages` classifies as `mail` (the mail check runs
before the users check) and `/users/alice@corp.com` classifies as `users`. -/
theorem C5_classifier_first_match_wins :
    (∀ p : String, _get_endpoint_category p = firstMatchCategory p)
    ∧ _get_endpoint_category "/users/alice@corp.com/messages" = "mail"
    ∧ _get_endpoint_category "/users/alice@corp.com" = "users" := by
  refine ⟨fun p => ?_, by decide, by decide⟩
  simp only [_get_endpoint_category, firstMatchCategory, categoryRules, applyRules]

/-- C8: `_get_endpoint_category` never returns `"teams_messages"` (the
teams branch needs the substring `/messages`, which the mail branch, checked
first, already matches), so `get_rate_limiter` never adds a
`teams_messages` entry to the registry. -/
theorem C8_teams_messages_unreachable (p : String) (cfg : RateConfig)
    (st : LimiterRegistry) :
    _get_endpoint_category p ≠ "teams_messages"
    ∧ ((get_rate_limiter cfg p st).2).lookup "teams_messages"
        = st.lookup "teams_messages" := by
  have hne : _get_endpoint_category p ≠ "teams_messages" := by
    cases hm : pyIn "/messages" (pyLower p) with
    | true => simp [_get_endpoint_category, hm]
    | false =>
      simp only [_get_endpoint_category, hm, Bool.and_false, Bool.false_or,
        Bool.or_false, if_false]
      split_ifs <;> simp_all
  refine ⟨hne, ?_⟩
  unfold get_rate_limiter
  cases hl : st.lookup (_get_endpoint_category p) with
  | some l => simp [hl]
  | none =>
    simp only [hl]
    have hb : ("teams_messages" == _get_endpoint_category p) = false := by
      simp [Ne.symm hne]
    simp [List.lookup, hb]

/-- C7: `_parse_rate_limit` is total: on a string splitting into an
int-parsable first part and a float-parsable second part it returns the
parsed pair, and on every malformed string (missing comma, i.e. a single
split part, or a non-numeric part) it returns the conservative default
`(100, 60)` instead of raising; and the limiter for a category is created
lazily on first reference (parsed from that category's configuration string
and cached) while every later reference returns the same cached instance
with the registry unchanged. -/
theorem C7_parse_total_and_registry_lazy_cached :
    (∀ (s : String) (p0 p1 : List Char) (rest : List (List Char))
        (mx : Int) (tp : ℚ),
        splitOnComma s.data = p0 :: p1 :: rest →
        pyInt? p0 = some mx → pyFloat? p1 = some tp →
        _parse_rate_limit s = (mx, tp))
    ∧ (∀ (s : String) (p0 : List Char),
        splitOnComma s.data = [p0] → _parse_rate_limit s = (100, 60))
    ∧ (∀ (s : String) (p0 p1 : List Char) (rest : List (List Char)),
        splitOnComma s.data = p0 :: p1 :: rest →
        (pyInt? p0 = none ∨ pyFloat? p1 = none) →
        _parse_rate_limit s = (100, 60))
    ∧ (∀ (cfg : RateConfig) (endpoint : String) (st : LimiterRegistry),
        st.lookup (_get_endpoint_category endpoint) = none →
        get_rate_limiter cfg endpoint st =
          (⟨(_parse_rate_limit
                (rate_limit_config_get cfg (_get_endpoint_category endpoint))).1,
            (_parse_rate_limit
                (rate_limit_config_get cfg (_get_endpoint_category endpoint))).2⟩,
            (_get_endpoint_category endpoint,
              ⟨(_parse_rate_limit
                  (rate_limit_config_get cfg (_get_endpoint_category endpoint))).1,
                (_parse_rate_limit
                  (rate_limit_config_get cfg (_get_endpoint_category endpoint))).2⟩)
              :: st))
    ∧ (∀ (cfg : RateConfig) (endpoint : String) (st : LimiterRegistry)
        (l : AsyncLimiter),
        st.lookup (_get_endpoint_category endpoint) = some l →
        get_rate_limiter cfg endpoint st = (l, st)) := by
  refine ⟨?_, ?_, ?_, ?_, ?_⟩
  · intro s p0 p1 rest mx tp hsplit hint hfloat
    unfold _parse_rate_limit
    rw [hsplit]
    simp [hint, hfloat]
  · intro s p0 hsplit
    unfold _parse_rate_limit
    rw [hsplit]
  · intro s p0 p1 rest hsplit hbad
    unfold _parse_rate_limit
    rw [hsplit]
    rcases hbad with h | h
    · simp [h]
    · cases hi : pyInt? p0 <;> simp [h, hi]
  · intro cfg endpoint st hnone
    unfold get_rate_limiter
    simp [hnone]
  · intro cfg endpoint st l hsome
    unfold get_rate_limiter
    simp [hsome]

/-- Witness for `C7_parse_total_and_registry_lazy_cached`: the default mail
configuration string `"10000,600"` parses to `(10000, 600)`; `"oops"`
(no comma) and `"a,b"` (non-numeric) fall back to `(100, 60)`; on the empty
registry the `users` limiter is created from `RATE_LIMIT_USERS` and cached,
and a second reference returns that cached instance unchanged. -/
theorem C7_witness :
    _parse_rate_limit "10000,600" = (10000, 600)
    ∧ _parse_rate_limit "oops" = (100, 60)
    ∧ _parse_rate_limit "a,b" = (100, 60)
    ∧ get_rate_limiter
        ⟨"2000,10", "10000,600", "10000,600", "120,60", "5,1", "10000,600",
          "10000,600", "10000,600"⟩ "/users" []
        = (⟨10000, 600⟩, [("users", ⟨10000, 600⟩)])
    ∧ get_rate_limiter
        ⟨"2000,10", "10000,600", "10000,600", "120,60", "5,1", "10000,600",
          "10000,600", "10000,600"⟩ "/users" [("users", ⟨10000, 600⟩)]
        = (⟨10000, 600⟩, [("users", ⟨10000, 600⟩)]) := by
  have h := C7_parse_total_and_registry_lazy_cached
  refine ⟨h.1 "10000,600" "10000".data "600".data [] 10000 600 (by decide)
      (by decide) (by decide),
    h.2.1 "oops" "oops".data (by decide),
    h.2.2.1 "a,b" "a".data "b".data [] (by decide) (Or.inl (by decide)),
    ?_, ?_⟩
  · have h4 := h.2.2.2.1
      ⟨"2000,10", "10000,600", "10000,600", "120,60", "5,1", "10000,600",
        "10000,600", "10000,600"⟩ "/users" [] (by decide)
    rw [h4]
    decide
  · exact h.2.2.2.2
      ⟨"2000,10", "10000,600", "10000,600", "120,60", "5,1", "10000,600",
        "10000,600", "10000,600"⟩ "/users" [("users", ⟨10000, 600⟩)]
      ⟨10000, 600⟩ (by decide)

/-- Count bookkeeping of `_update_metrics`: the total always grows by one,
the success counter grows exactly on 2xx, the error counter exactly on
status ≥ 400. -/
theorem _update_metrics_counts (m : RequestMetrics) (d : ℚ) (s : Nat)
    (e : Option String) :
    (_update_metrics m d s e).total_requests = m.total_requests + 1
    ∧ (_update_metrics m d s e).success_count
        = m.success_count + (if 200 ≤ s ∧ s < 300 then 1 else 0)
    ∧ (_update_metrics m d s e).error_count
        = m.error_count + (if ¬(200 ≤ s ∧ s < 300) ∧ 400 ≤ s then 1 else 0) := by
  unfold _update_metrics
  split_ifs <;> simp_all

/-- Aggregate invariant of claim C10. -/
def MetricsInv (m : RequestMetrics) : Prop :=
  m.success_count + m.error_count ≤ m.total_requests

/-- Presence in a `List.lookup` result implies list membership. -/
theorem mem_of_lookup {es : List (String × RequestMetrics)} {k : String}
    {v : RequestMetrics} (h : es.lookup k = some v) : (k, v) ∈ es := by
  induction es with
  | nil => simp [List.lookup] at h
  | cons a as ih =>
    obtain ⟨k', v'⟩ := a
    rw [List.lookup] at h
    cases hbeq : k == k' with
    | true =>
      rw [hbeq] at h
      simp only [Option.some.injEq] at h
      subst h
      have hk : k = k' := eq_of_beq hbeq
      subst hk
      exact List.mem_cons_self _ _
    | false =>
      rw [hbeq] at h
      exact List.mem_cons_of_mem _ (ih h)

/-- Entries after a dict assignment are old entries or the assigned pair. -/
theorem mem_setEntry {es : List (String × RequestMetrics)} {k : String}
    {v : RequestMetrics} {q : String × RequestMetrics}
    (h : q ∈ setEntry es k v) : q ∈ es ∨ q = (k, v) := by
  induction es with
  | nil => simp [setEntry] at h; simp [h]
  | cons a as ih =>
    obtain ⟨k', v'⟩ := a
    unfold setEntry at h
    split_ifs at h with hk
    · rcases List.mem_cons.mp h with h | h
      · exact Or.inr h
      · exact Or.inl (List.mem_cons_of_mem _ h)
    · rcases List.mem_cons.mp h with h | h
      · exact Or.inl (h ▸ List.mem_cons_self _ _)
      · rcases ih h with h | h
        · exact Or.inl (List.mem_cons_of_mem _ h)
        · exact Or.inr h

/-- C10: `record_request` preserves the invariant
`success_count + error_count ≤ total_requests` on both the global and every
per-endpoint aggregate, and a sample whose status is neither 2xx nor ≥ 400
(in particular status 0, recorded when no response was obtained) increments
`total_requests` while leaving `success_count` and `error_count` unchanged,
so the `success_rate` denominator includes such calls. -/
theorem C10_metrics_invariant (st : MetricsCollector) (endpoint : String)
    (d : ℚ) (s : Nat) (err : Option String)
    (hg : MetricsInv st._global_metrics)
    (he : ∀ q ∈ st._endpoint_metrics, MetricsInv q.2) :
    (MetricsInv (record_request st endpoint d s err)._global_metrics
      ∧ ∀ q ∈ (record_request st endpoint d s err)._endpoint_metrics,
          MetricsInv q.2)
    ∧ (¬(200 ≤ s ∧ s < 300) → s < 400 →
        (record_request st endpoint d s err)._global_metrics.total_requests
            = st._global_metrics.total_requests + 1
        ∧ (record_request st endpoint d s err)._global_metrics.success_count
            = st._global_metrics.success_count
        ∧ (record_request st endpoint d s err)._global_metrics.error_count
            = st._global_metrics.error_count
        ∧ _calculate_success_rate
            (record_request st endpoint d s err)._global_metrics
          = round2 ((st._global_metrics.success_count : ℚ)
              / ((st._global_metrics.total_requests + 1 : Nat) : ℚ) * 100)) := by
  have hupd : ∀ m : RequestMetrics, MetricsInv m →
      MetricsInv (_update_metrics m d s err) := by
    intro m hm
    obtain ⟨h1, h2, h3⟩ := _update_metrics_counts m d s err
    unfold MetricsInv at hm ⊢
    rw [h1, h2, h3]
    split_ifs <;> omega
  constructor
  · constructor
    · exact hupd _ hg
    · intro q hq
      unfold record_request at hq
      rcases mem_setEntry hq with h | h
      · exact he q h
      · subst h
        apply hupd
        cases hl : st._endpoint_metrics.lookup endpoint with
        | none => simp [hl, RequestMetrics.init, MetricsInv]
        | some prev => simpa [hl] using he _ (mem_of_lookup hl)
  · intro hnot2xx hlt400
    obtain ⟨h1, h2, h3⟩ :=
      _update_metrics_counts st._global_metrics d s err
    rw [if_neg hnot2xx] at h2
    rw [if_neg (by omega : ¬(¬(200 ≤ s ∧ s < 300) ∧ 400 ≤ s))] at h3
    have hrec :
        (record_request st endpoint d s err)._global_metrics
          = _update_metrics st._global_metrics d s err := rfl
    refine ⟨by rw [hrec, h1], by rw [hrec, h2]; omega,
      by rw [hrec, h3]; omega, ?_⟩
    rw [hrec]
    unfold _calculate_success_rate
    rw [h1, h2, if_neg (by omega : ¬(st._global_metrics.total_requests + 1 = 0))]
    norm_num

/-- Witness for `C10_metrics_invariant`: recording a status-302 sample of
duration 0 on the empty collector keeps both invariants, bumps only the
total, and the success-rate formula divides by the bumped total. -/
theorem C10_witness :
    (MetricsInv
        (record_request ⟨RequestMetrics.init, []⟩ "/e" 0 302 none)._global_metrics
      ∧ ∀ q ∈ (record_request ⟨RequestMetrics.init, []⟩ "/e" 0 302
            none)._endpoint_metrics, MetricsInv q.2)
    ∧ ((record_request ⟨RequestMetrics.init, []⟩ "/e" 0 302
          none)._global_metrics.total_requests
            = (RequestMetrics.init).total_requests + 1
        ∧ (record_request ⟨RequestMetrics.init, []⟩ "/e" 0 302
          none)._global_metrics.success_count
            = (RequestMetrics.init).success_count
        ∧ (record_request ⟨RequestMetrics.init, []⟩ "/e" 0 302
          none)._global_metrics.error_count
            = (RequestMetrics.init).error_count
        ∧ _calculate_success_rate
            (record_request ⟨RequestMetrics.init, []⟩ "/e" 0 302
              none)._global_metrics
          = round2 (((RequestMetrics.init).success_count : ℚ)
              / (((RequestMetrics.init).total_requests + 1 : Nat) : ℚ) * 100)) := by
  have h := C10_metrics_invariant ⟨RequestMetrics.init, []⟩ "/e" 0 302 none
    (by simp [MetricsInv, RequestMetrics.init]) (by simp)
  exact ⟨h.1, h.2 (by omega) (by omega)⟩

/-- Accounting invariant of the attempt loop: whenever the locals entering
an iteration account for the elapsed time (network time of the calls made
so far plus sleeps performed) and for the last observed status, the locals
at loop exit do too, for any outcome of the loop. -/
theorem requestLoop_accounting (o : Nat → AttemptOutcome) (mr : Nat)
    (W : Int) :
    ∀ (fuel rc : Nat) (acc : LoopAcc),
      acc.elapsed = (∑ i in Finset.range acc.calls, attemptTime o i)
          + acc.sleeps.sum →
      acc.status_code = lastStatus o acc.calls →
      (requestLoop o mr W rc fuel acc).2.elapsed
        = (∑ i in Finset.range (requestLoop o mr W rc fuel acc).2.calls,
            attemptTime o i)
          + (requestLoop o mr W rc fuel acc).2.sleeps.sum
      ∧ (requestLoop o mr W rc fuel acc).2.status_code
        = lastStatus o (requestLoop o mr W rc fuel acc).2.calls := by
  intro fuel
  induction fuel with
  | zero =>
    intro rc acc h1 h2
    simpa [requestLoop] using ⟨h1, h2⟩
  | succ fuel ih =>
    intro rc acc h1 h2
    simp only [requestLoop]
    cases ho : o acc.calls with
    | netExc t =>
      simp only
      have ht : attemptTime o acc.calls = t := by simp [attemptTime, ho]
      refine ⟨?_, ?_⟩
      · simp only [Finset.sum_range_succ, ht, h1]
        ring
      · simpa [lastStatus, ho] using h2
    | response s ra t =>
      have ht : attemptTime o acc.calls = t := by simp [attemptTime, ho]
      have hA : acc.elapsed + t
          = (∑ i in Finset.range (acc.calls + 1), attemptTime o i)
            + acc.sleeps.sum := by
        simp only [Finset.sum_range_succ, ht, h1]
        ring
      have hB : s = lastStatus o (acc.calls + 1) := by
        simp [lastStatus, ho]
      simp only
      by_cases h429 : s = 429
      · rw [if_pos h429]
        split
        · exact ⟨hA, hB⟩
        · by_cases hrc : rc < mr
          · rw [if_pos hrc]
            apply ih
            · simp only [List.sum_append, List.sum_cons, List.sum_nil]
              rw [hA]
              ring
            · exact hB
          · rw [if_neg hrc]
            exact ⟨hA, hB⟩
      · rw [if_neg h429]
        by_cases h5 : 500 ≤ s ∧ rc < mr
        · rw [if_pos h5]
          apply ih
          · simp only [List.sum_append, List.sum_cons, List.sum_nil]
            rw [hA]
            ring
          · exact hB
        · rw [if_neg h5]
          by_cases h4 : 400 ≤ s
          · rw [if_pos h4]
            exact ⟨hA, hB⟩
          · rw [if_neg h4]
            exact ⟨hA, hB⟩

/-- C3: every logical `request` call — whichever branch terminates it —
records exactly one metrics sample, and that sample carries the endpoint,
the last observed status code (0 when no response was ever obtained) and
the total elapsed wall time: the network time of all attempts plus all
backoff sleeps. -/
theorem C3_exactly_one_metrics_sample (MR : Nat) (W : Int)
    (tok : Option String) (o : Nat → AttemptOutcome) (endpoint : String)
    (mro : Option Nat) :
    (request MR W tok o endpoint mro).samples.map
        (fun smp => (smp.endpoint, smp.status_code, smp.duration_ms))
      = [(endpoint,
          lastStatus o (request MR W tok o endpoint mro).networkCalls,
          (∑ i in Finset.range (request MR W tok o endpoint mro).networkCalls,
            attemptTime o i)
            + (request MR W tok o endpoint mro).sleeps.sum)] := by
  cases tok with
  | none => simp [request, lastStatus]
  | some t =>
    have h := requestLoop_accounting o (mro.getD MR) W (mro.getD MR + 1) 0
      LoopAcc.init (by simp [LoopAcc.init]) (by simp [LoopAcc.init, lastStatus])
    simp only [request, List.map]
    exact by rw [h.1, h.2]

/-- Attempt-loop behaviour when every network call yields a 5xx response:
all attempts allowed by the loop bound are consumed and the loop terminates
by re-raising the `httpx.HTTPStatusError` of the last response — not by any
`MaxRetriesExceededError`. -/
theorem requestLoop_all_5xx (o : Nat → AttemptOutcome) (mr : Nat) (W : Int)
    (h5 : ∀ i, ∃ s ra t, o i = .response s ra t ∧ 500 ≤ s) :
    ∀ (fuel rc : Nat) (acc : LoopAcc), acc.calls = rc → rc + fuel = mr + 1 →
      rc ≤ mr →
      (requestLoop o mr W rc fuel acc).2.calls = mr + 1
      ∧ (requestLoop o mr W rc fuel acc).1
          = .exc (.httpStatusError (lastStatus o (mr + 1))) := by
  intro fuel
  induction fuel with
  | zero =>
    intro rc acc hc hsum hle
    omega
  | succ fuel ih =>
    intro rc acc hc hsum hle
    obtain ⟨s, ra, t, ho, hs⟩ := h5 acc.calls
    simp only [requestLoop, ho]
    rw [if_neg (by omega : ¬(s = 429))]
    by_cases hrc : rc < mr
    · rw [if_pos ⟨hs, hrc⟩]
      exact ih (rc + 1) _ (by simp [hc]) (by omega) (by omega)
    · rw [if_neg (fun hand => hrc hand.2), if_pos (by omega : 400 ≤ s)]
      have hrceq : rc = mr := by omega
      have hlast : lastStatus o (mr + 1) = s := by
        have : acc.calls = mr := by omega
        rw [lastStatus, ← this, ho]
      exact ⟨by simp [hc, hrceq], by rw [hlast]⟩

/-- C1 (amended): for a logical call with `max_retries = n` in which every
attempt's network call returns a status ≥ 500, exactly `n + 1` network calls
are issued and the call raises `httpx.HTTPStatusError` (re-raised from
`raise_for_status`) carrying the last observed 5xx status — not
`MaxRetriesExceededError`, which `graph.py` never imports or constructs. -/
theorem C1_amended_exhaustion_raises_HTTPStatusError (n MR : Nat) (W : Int)
    (tok : String) (o : Nat → AttemptOutcome) (endpoint : String)
    (h5 : ∀ i, ∃ s ra t, o i = .response s ra t ∧ 500 ≤ s) :
    (request MR W (some tok) o endpoint (some n)).networkCalls = n + 1
    ∧ (request MR W (some tok) o endpoint (some n)).outcome
        = .exc (.httpStatusError (lastStatus o (n + 1))) := by
  have h := requestLoop_all_5xx o n W h5 (n + 1) 0 LoopAcc.init rfl (by omega)
    (by omega)
  simpa [request] using h

/-- Counterexample to C1 as stated: with `max_retries = 3` and a downstream
that always answers 500, the call does make exactly 4 network calls, but it
terminates by raising `httpx.HTTPStatusError` with status 500 — not a
`MaxRetriesExceededError` carrying endpoint and attempt count as the claim
asserts. -/
theorem C1_counterexample :
    (request 3 60 (some "token") (fun _ => .response 500 none 1) "/e"
        (some 3)).networkCalls = 4
    ∧ (request 3 60 (some "token") (fun _ => .response 500 none 1) "/e"
        (some 3)).outcome = .exc (.httpStatusError 500)
    ∧ (request 3 60 (some "token") (fun _ => .response 500 none 1) "/e"
        (some 3)).outcome ≠ .exc (.maxRetriesExceededError "/e" 4) := by
  decide

/-- Witness for `C1_amended_exhaustion_raises_HTTPStatusError` at
`max_retries = 3` and a constant-500 oracle. -/
theorem C1_witness :
    (request 5 60 (some "token") (fun _ => .response 503 none 1) "/api"
        (some 3)).networkCalls = 3 + 1
    ∧ (request 5 60 (some "token") (fun _ => .response 503 none 1) "/api"
        (some 3)).outcome = .exc (.httpStatusError 503) := by
  have h := C1_amended_exhaustion_raises_HTTPStatusError 3 5 60 "token"
    (fun _ => .response 503 none 1) "/api"
    (fun i => ⟨503, none, 1, rfl, by omega⟩)
  exact ⟨h.1, by rw [h.2]; rfl⟩

/-- C2 (amended): a network-level failure (connection refused, timeout, DNS
failure — the network call raising instead of returning a response) is not
like a 5xx for retry purposes: the `except` clause of the attempt loop only
catches `httpx.HTTPStatusError`, so the exception propagates to the caller
on its first occurrence, with no backoff sleep and no further network call
(one metrics sample is still recorded, with status 0 on a first-attempt
failure). -/
theorem C2_amended_network_failure_propagates (MR : Nat) (W : Int)
    (tok : String) (o : Nat → AttemptOutcome) (endpoint : String)
    (mro : Option Nat) (t : ℚ) (h : o 0 = .netExc t) :
    request MR W (some tok) o endpoint mro
      = ⟨.exc .networkExc, 1, [], [⟨endpoint, t, 0, none⟩]⟩ := by
  have hz : LoopAcc.init.calls = 0 := rfl
  simp [request, requestLoop, LoopAcc.init, h]

/-- Counterexample to C2 as stated: with `max_retries = 3` and the first
network call failing at network level, the call issues exactly 1 network
call, performs no backoff sleep, and propagates the network exception —
it does not sleep `2^0` seconds and retry as the claim asserts. -/
theorem C2_counterexample :
    (request 3 60 (some "token") (fun _ => .netExc 1) "/e" none).networkCalls
        = 1
    ∧ (request 3 60 (some "token") (fun _ => .netExc 1) "/e" none).sleeps = []
    ∧ (request 3 60 (some "token") (fun _ => .netExc 1) "/e" none).outcome
        = .exc .networkExc := by
  decide

/-- Witness for `C2_amended_network_failure_propagates` with a concrete
first-attempt connection failure. -/
theorem C2_witness :
    request 3 60 (some "token") (fun _ => .netExc 1) "/e" none
      = ⟨.exc .networkExc, 1, [], [⟨"/e", 1, 0, none⟩]⟩ :=
  C2_amended_network_failure_propagates 3 60 "token" (fun _ => .netExc 1)
    "/e" none 1 rfl

/-- C4 (amended): a first-attempt status in [400, 499) other than 429 makes
the call issue exactly 1 network call (no retry) and raise immediately —
but what is raised is the `httpx.HTTPStatusError` from `raise_for_status`,
not a typed `ResourceNotFoundError`; the mailbox diagnostic hint on a mail
sub-path 404 is only written to the log, not attached to the raised
error. -/
theorem C4_amended_4xx_raises_immediately (MR : Nat) (W : Int) (tok : String)
    (o : Nat → AttemptOutcome) (endpoint : String) (mro : Option Nat)
    (s : Nat) (ra : Option String) (t : ℚ)
    (h4 : 400 ≤ s) (h5 : s < 500) (h429 : s ≠ 429)
    (h : o 0 = .response s ra t) :
    request MR W (some tok) o endpoint mro
      = ⟨.exc (.httpStatusError s), 1, [], [⟨endpoint, t, s, some "http_error"⟩]⟩ := by
  simp only [request, requestLoop, LoopAcc.init, h]
  rw [if_neg h429, if_neg (fun hand => absurd hand.1 (by omega)),
    if_pos h4]
  simp

/-- Counterexample to C4 as stated: a first-attempt 404 on a mail sub-path
performs exactly 1 network call, but raises `httpx.HTTPStatusError` — not a
`ResourceNotFoundError` annotated with the mailbox hint. -/
theorem C4_counterexample :
    (request 3 60 (some "token") (fun _ => .response 404 none 1)
        "/users/alice@corp.com/messages" none).networkCalls = 1
    ∧ (request 3 60 (some "token") (fun _ => .response 404 none 1)
        "/users/alice@corp.com/messages" none).outcome
          = .exc (.httpStatusError 404)
    ∧ (request 3 60 (some "token") (fun _ => .response 404 none 1)
        "/users/alice@corp.com/messages" none).outcome
          ≠ .exc (.resourceNotFoundError "/users/alice@corp.com/messages") := by
  decide

/-- Witness for `C4_amended_4xx_raises_immediately` at a concrete 403. -/
theorem C4_witness :
    request 3 60 (some "token") (fun _ => .response 403 none 1) "/teams" none
      = ⟨.exc (.httpStatusError 403), 1, [],
          [⟨"/teams", 1, 403, some "http_error"⟩]⟩ :=
  C4_amended_4xx_raises_immediately 3 60 "token"
    (fun _ => .response 403 none 1) "/teams" none 403 none 1
    (by omega) (by omega) (by omega) rfl

/-- C9: a 429 response whose `Retry-After` header is present but not a
decimal integer makes `int(...)` raise `ValueError`, which no `except` of
the attempt loop catches: the call aborts after that single network call —
even with retry attempts remaining — with no sleep, propagating the
`ValueError`, while the `finally` block still records the single metrics
sample (tagged from the 429). -/
theorem C9_bad_retry_after_raises_ValueError (MR : Nat) (W : Int)
    (tok : String) (o : Nat → AttemptOutcome) (endpoint : String)
    (mro : Option Nat) (hv : String) (t : ℚ)
    (hbad : pyInt? hv.data = none) (h : o 0 = .response 429 (some hv) t) :
    request MR W (some tok) o endpoint mro
      = ⟨.exc .valueError, 1, [],
          [⟨endpoint, t, 429, some "rate_limit"⟩]⟩ := by
  simp only [request, requestLoop, LoopAcc.init, h]
  simp [hbad]

/-- Witness for `C9_bad_retry_after_raises_ValueError` with an HTTP-date
`Retry-After` value and retries remaining. -/
theorem C9_witness :
    request 3 60 (some "token")
        (fun _ => .response 429 (some "Wed, 21 Oct 2015 07:28:00 GMT") 1)
        "/e" none
      = ⟨.exc .valueError, 1, [],
          [⟨"/e", 1, 429, some "rate_limit"⟩]⟩ :=
  C9_bad_retry_after_raises_ValueError 3 60 "token"
    (fun _ => .response 429 (some "Wed, 21 Oct 2015 07:28:00 GMT") 1)
    "/e" none "Wed, 21 Oct 2015 07:28:00 GMT" 1 (by decide) rfl

/-- C6 is a code bug: `auth.clear_token_cache()` clears the module cache but
then raises `NameError` (auth.py line 116 writes to `sys.stderr` without
`import sys`), although the repository's own scripts
(`test_mailbox.py`, `check_mailboxes.py`) call it expecting it to return;
a subsequent `get_token()` does perform a fresh exchange and returns the
newly exchanged token, never a pre-clear one. -/
theorem C6_clear_token_cache_raises_NameError :
    (clear_token_cache ⟨some "stale-token"⟩).1
        = Except.error "NameError: name 'sys' is not defined"
    ∧ (clear_token_cache ⟨some "stale-token"⟩).2._cached_token = none
    ∧ get_token (.tok "fresh-token") ((clear_token_cache ⟨some "stale-token"⟩).2)
        = .ok ("fresh-token", ⟨some "fresh-token"⟩) :=
  ⟨rfl, rfl, rfl⟩

end AppMCP
